import Mathlib

/-!
Verification of the network core of the email-investigation tool:
the traceroute parser and path statistics of `network_analyzer.py`
(`NetworkAnalyzer.traceroute`, `resolve_dns`, `scan_smtp_ports`,
`analyze_isp_interference`) and the connection sampler of
`network_monitor.py` (`NetworkMonitor`).  Pure functions are embedded
directly; effectful calls (DNS queries, socket probes, `subprocess`
output, clocks) become explicit parameters.  Machine reals used for
response times become `ℚ`; Python strings become `List Char` / `String`.
-/

namespace EmailTool

/-- ASCII whitespace as recognised by Python `str.strip`, `str.split`
and the regex class `\s` (for the ASCII inputs the tool parses). -/
def pyIsSpace (c : Char) : Bool :=
  c = ' ' || c = '\t' || c = '\n' || c = '\r' || c = '\x0b' || c = '\x0c'

/-- ASCII digit, i.e. the regex class `[0-9]`. -/
def pyIsDigit (c : Char) : Bool :=
  '0' ≤ c && c ≤ '9'

/-- Python `str.strip()` (ASCII whitespace). -/
def pyStrip (l : List Char) : List Char :=
  ((l.dropWhile pyIsSpace).reverse.dropWhile pyIsSpace).reverse

/-- Helper for `pySplit`: `acc` is the current word, reversed. -/
def pySplitAux : List Char → List Char → List (List Char)
  | [], acc => if acc.isEmpty then [] else [acc.reverse]
  | c :: rest, acc =>
    if pyIsSpace c then
      if acc.isEmpty then pySplitAux rest [] else acc.reverse :: pySplitAux rest []
    else pySplitAux rest (c :: acc)

/-- Python `str.split()` with no argument: split on runs of whitespace,
dropping empty fields. -/
def pySplit (l : List Char) : List (List Char) :=
  pySplitAux l []

/-- Python `line.count(c)` for a single character. -/
def countChar (c : Char) (l : List Char) : Nat :=
  (l.filter (· = c)).length

/-- Decimal digits of a nat (fueled helper). -/
def natDigitsAux : Nat → Nat → List Char
  | 0, _ => []
  | fuel + 1, n =>
    if n < 10 then [Char.ofNat (48 + n)]
    else natDigitsAux fuel (n / 10) ++ [Char.ofNat (48 + n % 10)]

/-- Decimal representation of a nat, as Python `str`/f-string renders it. -/
def natToDigits (n : Nat) : List Char :=
  natDigitsAux (n + 1) n

/-- Numeric value of a list of decimal digit characters. -/
def natOfDigits (l : List Char) : Nat :=
  l.foldl (fun acc c => acc * 10 + (c.toNat - 48)) 0

/-- Split a list on a separator character, keeping empty fields
(Python `str.split(sep)`). -/
def splitOnChar (sep : Char) : List Char → List (List Char)
  | [] => [[]]
  | c :: rest =>
    match splitOnChar sep rest with
    | [] => [[]]
    | w :: ws => if c = sep then [] :: w :: ws else (c :: w) :: ws

/-- Python `int(s)` for a string: optional surrounding whitespace, an
optional sign, then decimal digit groups separated by single
underscores.  `none` models a raised `ValueError`. -/
def pyInt (l : List Char) : Option Int :=
  let core (s : List Char) : Option Nat :=
    let groups := splitOnChar '_' s
    if groups.all (fun g => !g.isEmpty && g.all pyIsDigit) && !s.isEmpty then
      some (natOfDigits (groups.flatten))
    else none
  match pyStrip l with
  | '+' :: r => (core r).map Int.ofNat
  | '-' :: r => (core r).map (fun n => -(Int.ofNat n))
  | r => (core r).map Int.ofNat

/-- Whether `pat` occurs as a contiguous substring, i.e. Python
`pat in s`. -/
def isSubstr (pat : List Char) : List Char → Bool
  | [] => pat.isEmpty
  | c :: rest => pat.isPrefixOf (c :: rest) || isSubstr pat rest

/-- ASCII lowercasing, Python `str.lower()` on ASCII data. -/
def lowerAscii (l : List Char) : List Char :=
  l.map Char.toLower

/-- Greedy match of `[0-9]+` at the head of the input: the maximal
nonempty digit run and the rest. -/
def digits1 (s : List Char) : Option (List Char × List Char) :=
  let ds := s.takeWhile pyIsDigit
  if ds.isEmpty then none else some (ds, s.dropWhile pyIsDigit)

/-- Greedy match of `\.[0-9]+` at the head of the input. -/
def dotDigits1 (s : List Char) : Option (List Char × List Char) :=
  match s with
  | '.' :: r => digits1 r
  | _ => none

/-- Greedy match of `[0-9]+\.[0-9]+\.[0-9]+\.[0-9]+` at the head of the
input; returns the matched dotted-quad text and the rest.  Each digit
run is maximal, which coincides with the backtracking regex semantics
because every run is followed by a non-digit literal. -/
def matchQuad (l : List Char) : Option (List Char × List Char) :=
  match digits1 l with
  | none => none
  | some (d1, r1) =>
  match dotDigits1 r1 with
  | none => none
  | some (d2, r2) =>
  match dotDigits1 r2 with
  | none => none
  | some (d3, r3) =>
  match dotDigits1 r3 with
  | none => none
  | some (d4, r4) =>
    some (d1 ++ '.' :: d2 ++ '.' :: d3 ++ '.' :: d4, r4)

/-- Leftmost match of `re.search(r'\(([0-9]+\.[0-9]+\.[0-9]+\.[0-9]+)\)', line)`:
the first parenthesised dotted-quad, returned without the parentheses. -/
def findParenQuad : List Char → Option (List Char)
  | [] => none
  | '(' :: rest =>
    match matchQuad rest with
    | some (q, ')' :: _) => some q
    | _ => findParenQuad rest
  | _ :: rest => findParenQuad rest

/-- Attempted match of `\s+([^\s]+)\s+\(ip\)` starting exactly here:
maximal whitespace run, a nonempty non-space token (the capture),
maximal whitespace, then the literal `(ip)`. -/
def tryHostAt (ip : List Char) (l : List Char) : Option (List Char) :=
  let ws := l.takeWhile pyIsSpace
  if ws.isEmpty then none
  else
    let r1 := l.dropWhile pyIsSpace
    let tok := r1.takeWhile (fun c => !pyIsSpace c)
    if tok.isEmpty then none
    else
      let r2 := r1.dropWhile (fun c => !pyIsSpace c)
      let ws2 := r2.takeWhile pyIsSpace
      if ws2.isEmpty then none
      else
        let r3 := r2.dropWhile pyIsSpace
        if ('(' :: ip ++ [')']).isPrefixOf r3 then some tok else none

/-- Leftmost match of
`re.search(r'\s+([^\s]+)\s+\(' + re.escape(ip) + r'\)', line)`:
the hostname token immediately preceding the parenthesised IP. -/
def hostnameBefore (ip : List Char) : List Char → Option (List Char)
  | [] => none
  | c :: rest =>
    match tryHostAt ip (c :: rest) with
    | some tok => some tok
    | none => hostnameBefore ip rest

/-- Attempted match of `\s+(quad)` starting exactly here. -/
def tryWsQuadAt (l : List Char) : Option (List Char) :=
  if (l.takeWhile pyIsSpace).isEmpty then none
  else
    match matchQuad (l.dropWhile pyIsSpace) with
    | some (q, _) => some q
    | none => none

/-- Leftmost match of
`re.search(r'\s+([0-9]+\.[0-9]+\.[0-9]+\.[0-9]+)', line)`: a bare
dotted-quad preceded by whitespace. -/
def findWsQuad : List Char → Option (List Char)
  | [] => none
  | c :: rest =>
    match tryWsQuadAt (c :: rest) with
    | some q => some q
    | none => findWsQuad rest

/-- Attempted match of `(\d+\.?\d*)\s*ms` starting at a digit here:
maximal digit run, an optional dot with a maximal digit run, maximal
whitespace, then the literal `ms`.  Backtracking never recovers from a
failure of this greedy strategy at a given start position. -/
def tryMsAt (l : List Char) : Option (List Char) :=
  let d1 := l.takeWhile pyIsDigit
  if d1.isEmpty then none
  else
    let r1 := l.dropWhile pyIsDigit
    let msTail (r : List Char) : Bool :=
      ['m', 's'].isPrefixOf (r.dropWhile pyIsSpace)
    match r1 with
    | '.' :: r2 =>
      let d2 := r2.takeWhile pyIsDigit
      if msTail (r2.dropWhile pyIsDigit) then some (d1 ++ '.' :: d2) else none
    | _ => if msTail r1 then some d1 else none

/-- Leftmost match of `re.search(r'(\d+\.?\d*)\s*ms', line)`: the first
millisecond value on the line, as captured text. -/
def findMs : List Char → Option (List Char)
  | [] => none
  | c :: rest =>
    match tryMsAt (c :: rest) with
    | some s => some s
    | none => findMs rest

/-- Python `float(s)` on a string shaped `\d+(\.\d*)?`, as produced by
`findMs`; exact rational value. -/
def pyFloatOfMs (l : List Char) : ℚ :=
  let ip := l.takeWhile pyIsDigit
  match l.dropWhile pyIsDigit with
  | '.' :: fr => (natOfDigits ip : ℚ) + (natOfDigits fr : ℚ) / ((10 : ℚ) ^ fr.length)
  | _ => (natOfDigits ip : ℚ)

/-- Shallow embedding of the `TracerouteHop` dataclass of
`network_analyzer.py`. -/
structure TracerouteHop where
  hop_number : Int
  ip_address : String
  hostname : String
  response_time : ℚ
  is_timeout : Bool
deriving DecidableEq

/-- Mutable locals of the parsing loop in `NetworkAnalyzer.traceroute`:
the accumulated `hops` list and the `consecutive_timeouts` counter. -/
structure TrState where
  hops : List TracerouteHop
  ct : Nat
deriving DecidableEq

/-- Control outcome of one iteration of the parsing loop:
`next` falls through to the next line, `brk` executes the `break`
after 3 consecutive timeouts, and `err` models the `NameError` raised
by the hop construction (the identifier `is_timeout` is undefined at
`network_analyzer.py:183`), which escapes the inner
`except (ValueError, IndexError)` and is swallowed by the outer
`except Exception`, ending the whole parse. -/
inductive TrOut where
  | next (s : TrState)
  | brk (s : TrState)
  | err (s : TrState)
deriving DecidableEq

/-- State carried by a `TrOut`, whatever the control outcome. -/
def TrOut.state : TrOut → TrState
  | .next s => s
  | .brk s => s
  | .err s => s

/-- How the line-parsing loop of `NetworkAnalyzer.traceroute` processed
one output line (`network_analyzer.py:127-188`), embedded faithfully:
skip blank lines; require at least 2 whitespace-separated fields and an
integer first field; count a line with 3 or more `*` as a timeout and
break at 3 consecutive ones; otherwise reset the counter, extract an IP
(parenthesised dotted-quad with the preceding token as hostname, else a
bare dotted-quad), skip the line if none; and finally reach the
`TracerouteHop(...)` constructor call, which raises `NameError` because
`is_timeout` is an undefined name. -/
def trLineStep (s : TrState) (line : List Char) : TrOut :=
  if (pyStrip line).isEmpty then .next s
  else if (pySplit line).length < 2 then .next s
  else
    match pyInt ((pySplit line).headD []) with
    | none => .next s
    | some _ =>
      if 3 ≤ countChar '*' line then
        if 3 ≤ s.ct + 1 then .brk { s with ct := s.ct + 1 }
        else .next { s with ct := s.ct + 1 }
      else
        if (findParenQuad line).isSome || (findWsQuad line).isSome then
          .err { s with ct := 0 }
        else .next { s with ct := 0 }

/-- Final disposition of the parsing loop over all lines. -/
inductive TrStop where
  | ran
  | brk
  | err
deriving DecidableEq

/-- Run of the parsing loop of `NetworkAnalyzer.traceroute` over the
traceroute output lines (header already dropped): folds `trLineStep`,
stopping at a `break` or at the `NameError`. -/
def trRun (s : TrState) : List (List Char) → TrState × TrStop
  | [] => (s, .ran)
  | l :: rest =>
    match trLineStep s l with
    | .next s' => trRun s' rest
    | .brk s' => (s', .brk)
    | .err s' => (s', .err)

/-- Shallow embedding of the `NetworkPath` dataclass of
`network_analyzer.py`. -/
structure NetworkPath where
  target_host : String
  target_ip : String
  hops : List TracerouteHop
  total_hops : Nat
  packet_loss : ℚ
  avg_rtt : ℚ
  isp_detected : Option String
deriving DecidableEq

/-- Static ISP substring table of
`NetworkAnalyzer._detect_isp_from_hops`. -/
def isp_patterns : List (String × List String) :=
  [("COMCAST", ["comcast", "xfinity"]),
   ("VERIZON", ["verizon", "fios"]),
   ("ATT", ["att.net", "attdns"]),
   ("COX", ["cox.net"]),
   ("CHARTER", ["charter", "spectrum"]),
   ("CENTURYLINK", ["centurylink", "qwest"])]

/-- Embedding of `NetworkAnalyzer._detect_isp_from_hops`: first hop, in
order, whose (truthy) hostname contains one of the table substrings;
the table entry already carries the uppercased carrier name. -/
def detect_isp_from_hops (hops : List TracerouteHop) : Option String :=
  hops.findSome? fun h =>
    if h.hostname.isEmpty then none
    else
      isp_patterns.findSome? fun p =>
        if p.2.any (fun pat => isSubstr pat.data (lowerAscii h.hostname.data))
        then some p.1 else none

/-- Statistics and assembly tail of `NetworkAnalyzer.traceroute`
(`network_analyzer.py:229-245`): mean RTT over non-timeout hops, packet
loss as the percentage of timeout hops, last hop IP as target IP. -/
def mkNetworkPath (target : String) (hops : List TracerouteHop) : NetworkPath :=
  let valid := hops.filter (fun h => !h.is_timeout)
  let avg_rtt : ℚ :=
    if valid.isEmpty then 0
    else (valid.map TracerouteHop.response_time).sum / (valid.length : ℚ)
  let packet_loss : ℚ :=
    if hops.isEmpty then 0
    else ((hops.length : ℚ) - (valid.length : ℚ)) / (hops.length : ℚ) * 100
  { target_host := target
    target_ip := ((hops.getLast?).map TracerouteHop.ip_address).getD ""
    hops := hops
    total_hops := hops.length
    packet_loss := packet_loss
    avg_rtt := avg_rtt
    isp_detected := detect_isp_from_hops hops }

/-- Embedding of `NetworkAnalyzer.traceroute`: `rawLines` are the
stdout lines after the header skip (the subprocess call is abstracted),
and `fallback` is the observable result of the port-80 connectivity
probe run when no hop was parsed — `some (ip, rtt_ms)` on a successful
`connect_ex`, `none` when resolution or connection fails.  The parsed
hop list is always empty because every hop construction raises
`NameError` (see `trLineStep`), so the fallback always runs. -/
def traceroute (target : String) (rawLines : List (List Char))
    (fallback : Option (String × ℚ)) : NetworkPath :=
  let st := (trRun { hops := [], ct := 0 } rawLines).1
  let hops :=
    if st.hops.isEmpty then
      match fallback with
      | some (ip, rt) =>
        [{ hop_number := 1, ip_address := ip, hostname := target,
           response_time := rt, is_timeout := false : TracerouteHop }]
      | none => []
    else st.hops
  mkNetworkPath target hops

/-- Guard that a parsed output line must pass before the timeout logic
of `NetworkAnalyzer.traceroute` runs: non-blank, at least two
whitespace-separated fields, and an integer first field
(`network_analyzer.py:128-135`). -/
def intLeadLine (l : List Char) : Bool :=
  !(pyStrip l).isEmpty && decide (2 ≤ (pySplit l).length)
    && (pyInt ((pySplit l).headD [])).isSome

/-- Shallow embedding of the `DNSResult` dataclass of
`network_analyzer.py`. -/
structure DNSResult where
  hostname : String
  ip_addresses : List String
  mx_records : List (Nat × String)
  response_time : ℚ
  authoritative : Bool
  dnssec_valid : Bool
deriving DecidableEq

/-- Python dict assignment `cache[key] = value` on an association list. -/
def dictInsert (cache : List (String × DNSResult)) (key : String)
    (val : DNSResult) : List (String × DNSResult) :=
  if cache.any (fun kv => kv.1 = key) then
    cache.map (fun kv => if kv.1 = key then (key, val) else kv)
  else cache ++ [(key, val)]

/-- Embedding of `NetworkAnalyzer.resolve_dns`
(`network_analyzer.py:69-113`).  The two resolver calls are abstracted
as `Except` inputs (`error` models a raised exception), and the elapsed
wall-clock time as `rt`.  Each record type is resolved inside its own
`try`/`except: pass`, so a failure of one leaves only that list empty;
`authoritative` is `len(a_records) > 0`; the result is written into the
per-hostname cache.  The function is total: the outer `except` can
never fire because everything after the inner handlers is pure. -/
def resolve_dns (cache : List (String × DNSResult)) (hostname : String)
    (aAns : Except String (List String))
    (mxAns : Except String (List (Nat × String)))
    (rt : ℚ) : DNSResult × List (String × DNSResult) :=
  let a_records := match aAns with | .ok l => l | .error _ => []
  let mx_records := match mxAns with | .ok l => l | .error _ => []
  let result : DNSResult :=
    { hostname := hostname
      ip_addresses := a_records
      mx_records := mx_records
      response_time := rt
      authoritative := a_records.length > 0
      dnssec_valid := false }
  (result, dictInsert cache hostname result)

/-- Shallow embedding of the `PortScanResult` dataclass of
`network_analyzer.py`. -/
structure PortScanResult where
  port : Nat
  is_open : Bool
  response_time : Option ℚ
  service : Option String
deriving DecidableEq

/-- Fixed port list of `NetworkAnalyzer.scan_smtp_ports`. -/
def smtp_ports : List Nat := [25, 465, 587, 2525]

/-- Embedding of `NetworkAnalyzer._get_smtp_service_name`. -/
def get_smtp_service_name (port : Nat) : String :=
  if port = 25 then "SMTP"
  else if port = 465 then "SMTPS (SSL)"
  else if port = 587 then "SMTP (STARTTLS)"
  else if port = 2525 then "SMTP (Alternative)"
  else "Port " ++ (natToDigits port).asString

/-- One probe of `NetworkAnalyzer.scan_smtp_ports`: `probe` abstracts
`sock.connect_ex` (`.error` models a raised exception, `.ok code` its
return value, open iff the code is 0) and `rtOf` the measured elapsed
time. -/
def scanOnePort (probe : Nat → Except Unit Int) (rtOf : Nat → ℚ)
    (port : Nat) : PortScanResult :=
  match probe port with
  | .ok code =>
    { port := port, is_open := code = 0
      response_time := if code = 0 then some (rtOf port) else none
      service := some (get_smtp_service_name port) }
  | .error _ =>
    { port := port, is_open := false, response_time := none
      service := some (get_smtp_service_name port) }

/-- Embedding of `NetworkAnalyzer.scan_smtp_ports`
(`network_analyzer.py:247-278`). -/
def scan_smtp_ports (probe : Nat → Except Unit Int) (rtOf : Nat → ℚ) :
    List PortScanResult :=
  smtp_ports.map (scanOnePort probe rtOf)

/-- Whether the abstract connect probe reports the port open. -/
def probeOpen (probe : Nat → Except Unit Int) (port : Nat) : Bool :=
  match probe port with
  | .ok code => code = 0
  | .error _ => false

/-- Shallow embedding of the `ISPAnalysis` dataclass of
`network_analyzer.py`. -/
structure ISPAnalysis where
  isp_name : Option String
  suspicious_behavior : List String
  blocked_ports : List Nat
  throttling_detected : Bool
  dpi_detected : Bool
  connection_resets : Nat
  recommendations : List String
deriving DecidableEq

/-- Embedding of `NetworkAnalyzer.analyze_isp_interference`
(`network_analyzer.py:280-328`).  The socket probes, the traceroute and
the DPI check are abstracted as inputs (`probe`/`rtOf` feed the port
scan, `path` is the freshly traced `NetworkPath`, `dpi` the outcome of
`_detect_dpi_signatures`); `fmtPct` abstracts Python `f"{x:.1f}"`
number formatting inside the two note strings. -/
def analyze_isp_interference (probe : Nat → Except Unit Int)
    (rtOf : Nat → ℚ) (path : NetworkPath) (dpi : Bool)
    (fmtPct : ℚ → String) : ISPAnalysis :=
  let port_results := scan_smtp_ports probe rtOf
  let blocked_ports :=
    (port_results.filter (fun r => !r.is_open)).map PortScanResult.port
  let behav1 : List String :=
    if (25 : Nat) ∈ blocked_ports then ["Port 25 blocked (common ISP practice)"] else []
  let recs1 : List String :=
    if (25 : Nat) ∈ blocked_ports then ["Use port 587 or 465 instead of port 25"] else []
  let behav2 : List String :=
    if path.packet_loss > 5 then ["High packet loss: " ++ fmtPct path.packet_loss ++ "%"] else []
  let behav3 : List String :=
    if path.avg_rtt > 200 then ["High latency: " ++ fmtPct path.avg_rtt ++ "ms"] else []
  let comcast : Bool :=
    match path.isp_detected with
    | some isp => isSubstr "comcast".data (lowerAscii isp.data)
    | none => false
  let behav4 : List String :=
    if comcast then ["Comcast detected - known for email restrictions"] else []
  let recs2 : List String :=
    if comcast then ["Consider using VPN or alternative SMTP relay"] else []
  { isp_name := path.isp_detected
    suspicious_behavior := behav1 ++ behav2 ++ behav3 ++ behav4
    blocked_ports := blocked_ports
    throttling_detected := blocked_ports.length > 1 || path.packet_loss > 2
    dpi_detected := dpi
    connection_resets := 0
    recommendations := recs1 ++ recs2 }

/-- Shallow embedding of the `NetworkStats` dataclass of
`network_monitor.py`. -/
structure NetworkStats where
  total_connections : Nat := 0
  smtp_connections : Nat := 0
  imap_connections : Nat := 0
  dns_queries : Nat := 0
  other_connections : Nat := 0
  suspicious_connections : Nat := 0
  bytes_sent : Nat := 0
  bytes_received : Nat := 0
deriving DecidableEq

/-- Shallow embedding of the `NetworkConnection` dataclass of
`network_monitor.py`. -/
structure NetworkConnection where
  timestamp : ℚ
  local_addr : String
  local_port : Nat
  remote_addr : String
  remote_port : Nat
  protocol : String
  status : String
  process_name : String
deriving DecidableEq

/-- Mutable state of a `NetworkMonitor` instance that the sampling loop
touches: the `monitoring` flag, the connection log, the statistics and
the session dedup set (`known_connections`, modelled as a list with
membership-based deduplication). -/
structure MonState where
  monitoring : Bool
  connections : List NetworkConnection
  stats : NetworkStats
  known_connections : List String
deriving DecidableEq

/-- State of a freshly constructed `NetworkMonitor`
(`network_monitor.py:45-51`). -/
def initMonState : MonState :=
  { monitoring := false, connections := [], stats := {}, known_connections := [] }

/-- Embedding of `NetworkMonitor.start_monitoring`
(`network_monitor.py:98-110`): an early return while already
monitoring, otherwise only the `monitoring` flag is set (the thread
spawn and log writes have no effect on this state). -/
def start_monitoring (s : MonState) : MonState :=
  if s.monitoring then s else { s with monitoring := true }

/-- Embedding of `NetworkMonitor.stop_monitoring`
(`network_monitor.py:112-126`). -/
def stop_monitoring (s : MonState) : MonState :=
  if s.monitoring then { s with monitoring := false } else s

/-- Raw connection tuple as yielded by the per-process enumeration in
the sampling loop (`psutil` connection): optional local and remote
`(ip, port)` endpoints, status string, and whether the socket type is
`SOCK_STREAM`. -/
structure RawConn where
  laddr : Option (String × Nat)
  raddr : Option (String × Nat)
  status : String
  isTCP : Bool
deriving DecidableEq

/-- Python f-string rendering of a `psutil` address: an `addr` named
tuple renders as `addr(ip='<ip>', port=<port>)`, an empty endpoint as
`()`. -/
def reprAddr : Option (String × Nat) → String
  | none => "()"
  | some (ip, p) =>
    "addr(ip=\x27" ++ ip ++ "\x27, port=" ++ (natToDigits p).asString ++ ")"

/-- Identity key of an observed connection, built at
`network_monitor.py:144` as `f"{conn.laddr}:{conn.raddr}:{conn.status}"`. -/
def connId (o : RawConn) : String :=
  reprAddr o.laddr ++ ":" ++ reprAddr o.raddr ++ ":" ++ o.status

/-- Watch-list of `NetworkMonitor.suspicious_patterns`. -/
def suspicious_patterns : List String :=
  ["telemetry", "analytics", "tracking", "metrics", "stats",
   "api.github.com", "pypi.org"]

/-- Port keys of `NetworkMonitor.expected_services`. -/
def expected_service_ports : List Nat :=
  [25, 587, 465, 993, 143, 53, 80, 443]

/-- High-port clause of `NetworkMonitor._is_suspicious_connection`
(`network_monitor.py:221-225`): an unexpected port above 8000 that is
neither 8080 nor 8443. -/
def portRangeSuspicious (port : Nat) : Bool :=
  !(port ∈ expected_service_ports) && port > 8000 && port ≠ 8080 && port ≠ 8443

/-- Embedding of `NetworkMonitor._is_suspicious_connection`
(`network_monitor.py:212-227`): a watch-list substring of the
lowercased remote address, or the high-port clause. -/
def is_suspicious_connection (conn : NetworkConnection) : Bool :=
  suspicious_patterns.any
      (fun pat => isSubstr pat.data (lowerAscii conn.remote_addr.data))
    || portRangeSuspicious conn.remote_port

/-- Embedding of `NetworkMonitor._categorize_connection`
(`network_monitor.py:191-210`): bump the class counter chosen by the
remote port; only in the `other` branch is the suspicion predicate
evaluated and the suspicious counter possibly bumped. -/
def categorize_connection (conn : NetworkConnection) (remote_port : Nat)
    (s : MonState) : MonState :=
  if remote_port ∈ [25, 587, 465, 2525] then
    { s with stats.smtp_connections := s.stats.smtp_connections + 1 }
  else if remote_port ∈ [993, 143] then
    { s with stats.imap_connections := s.stats.imap_connections + 1 }
  else if remote_port = 53 then
    { s with stats.dns_queries := s.stats.dns_queries + 1 }
  else
    let s' := { s with stats.other_connections := s.stats.other_connections + 1 }
    if is_suspicious_connection conn then
      { s' with stats.suspicious_connections := s'.stats.suspicious_connections + 1 }
    else s'

/-- The `NetworkConnection` record built for one observed connection at
`network_monitor.py:152-171`; `now` is the tick timestamp and
`procName` the owning process name. -/
def obsConn (now : ℚ) (procName : String) (o : RawConn) : NetworkConnection :=
  { timestamp := now
    local_addr := (o.laddr.map Prod.fst).getD "unknown"
    local_port := (o.laddr.map Prod.snd).getD 0
    remote_addr := (o.raddr.map Prod.fst).getD "unknown"
    remote_port := (o.raddr.map Prod.snd).getD 0
    protocol := if o.isTCP then "TCP" else "UDP"
    status := o.status
    process_name := procName }

/-- One observed connection handled by the body of
`NetworkMonitor._monitor_loop` (`network_monitor.py:139-180`): skip a
`NONE` status; skip an identity key already in the session dedup set;
otherwise record the key, append the `NetworkConnection`, bump the
total counter and categorize. -/
def processObs (s : MonState) (now : ℚ) (procName : String)
    (o : RawConn) : MonState :=
  if o.status = "NONE" then s
  else if connId o ∈ s.known_connections then s
  else
    categorize_connection (obsConn now procName o)
      ((o.raddr.map Prod.snd).getD 0)
      { s with
        known_connections := s.known_connections ++ [connId o]
        connections := s.connections ++ [obsConn now procName o]
        stats.total_connections := s.stats.total_connections + 1 }

/-- Fold of `processObs` over a sequence of observations, the
observable effect of the sampling loop across ticks within a session. -/
def runObs (s : MonState) : List (ℚ × String × RawConn) → MonState
  | [] => s
  | (now, pn, o) :: rest => runObs (processObs s now pn o) rest

/-- Embedding of `NetworkMonitor.get_smtp_connections`. -/
def get_smtp_connections (s : MonState) : List NetworkConnection :=
  s.connections.filter (fun c => c.remote_port ∈ [25, 587, 465, 2525])

/-- Embedding of `NetworkMonitor.get_imap_connections`. -/
def get_imap_connections (s : MonState) : List NetworkConnection :=
  s.connections.filter (fun c => c.remote_port ∈ [993, 143])

/-- Embedding of `NetworkMonitor.get_suspicious_connections`
(`network_monitor.py:264-270`): re-evaluates the suspicion predicate
over every logged record, whatever its class. -/
def get_suspicious_connections (s : MonState) : List NetworkConnection :=
  s.connections.filter is_suspicious_connection

/-- Decimal string of a nat. -/
def natStr (n : Nat) : String :=
  (natToDigits n).asString

/-- Embedding of `NetworkConnection.__str__`
(`network_monitor.py:25-28`); `fmtTs` abstracts
`time.strftime('%H:%M:%S', time.localtime(ts))`. -/
def connStr (fmtTs : ℚ → String) (c : NetworkConnection) : String :=
  fmtTs c.timestamp ++ " " ++ c.protocol ++ " "
    ++ c.local_addr ++ ":" ++ natStr c.local_port ++ " -> "
    ++ c.remote_addr ++ ":" ++ natStr c.remote_port
    ++ " [" ++ c.status ++ "]"

/-- Embedding of `NetworkMonitor.export_report`
(`network_monitor.py:279-320`): the exact text written to the report
file.  `generated` abstracts the formatted generation time, `pid` the
process id, `logFilePath` the log-file path and `fmtTs` the
per-connection time formatting. -/
def export_report (generated : String) (pid : Nat) (logFilePath : String)
    (fmtTs : ℚ → String) (s : MonState) : String :=
  let email_conns := get_smtp_connections s ++ get_imap_connections s
  let suspicious := get_suspicious_connections s
  "=== EMAIL INVESTIGATION TOOL - NETWORK MONITORING REPORT ===\n"
    ++ "Generated: " ++ generated ++ "\n"
    ++ "Process PID: " ++ natStr pid ++ "\n"
    ++ "Log File: " ++ logFilePath ++ "\n\n"
    ++ "=== STATISTICS ===\n"
    ++ "Total connections: " ++ natStr s.stats.total_connections ++ "\n"
    ++ "SMTP connections: " ++ natStr s.stats.smtp_connections ++ "\n"
    ++ "IMAP connections: " ++ natStr s.stats.imap_connections ++ "\n"
    ++ "DNS queries: " ++ natStr s.stats.dns_queries ++ "\n"
    ++ "Other connections: " ++ natStr s.stats.other_connections ++ "\n"
    ++ "Suspicious connections: " ++ natStr s.stats.suspicious_connections ++ "\n\n"
    ++ "=== EMAIL SERVER CONNECTIONS ===\n"
    ++ String.join (email_conns.map (fun c => connStr fmtTs c ++ "\n"))
    ++ (if email_conns.isEmpty then "No email server connections detected.\n" else "")
    ++ "\n=== SUSPICIOUS CONNECTIONS ===\n"
    ++ String.join (suspicious.map (fun c => connStr fmtTs c ++ "\n"))
    ++ (if suspicious.isEmpty then "No suspicious connections detected.\n" else "")
    ++ "\n=== ALL CONNECTIONS ===\n"
    ++ String.join (s.connections.map (fun c => connStr fmtTs c ++ "\n"))

/-- Remainder of `l` after the first occurrence of `pat`, `none` when
`pat` does not occur. -/
def dropAfterFirst (pat : List Char) : List Char → Option (List Char)
  | [] => if pat.isEmpty then some [] else none
  | c :: rest =>
    if pat.isPrefixOf (c :: rest) then some ((c :: rest).drop pat.length)
    else dropAfterFirst pat rest

/-- Whether the given fragments occur in `l` in order, each after the
end of the previous one. -/
def occursInOrder : List Char → List (List Char) → Bool
  | _, [] => true
  | l, pat :: rest =>
    match dropAfterFirst pat l with
    | some l' => occursInOrder l' rest
    | none => false

/-- The concrete line used to exercise claim C1. -/
def c1Line : List Char := " 1  gw1 (93.184.216.34)  12.3 ms".data

/-- A concrete logged connection record, used in counterexample
states. -/
def demoConn : NetworkConnection :=
  { timestamp := 0, local_addr := "10.0.0.2", local_port := 40000
    remote_addr := "203.0.113.5", remote_port := 9999
    protocol := "TCP", status := "ESTABLISHED", process_name := "python" }

/-- A concrete idle sampler state left over from a previous session:
non-empty dedup set and connection log, non-zero counters. -/
def c2State : MonState :=
  { monitoring := false
    connections := [demoConn]
    stats :=
      { total_connections := 5, smtp_connections := 1
        imap_connections := 0, dns_queries := 1, other_connections := 3
        suspicious_connections := 2, bytes_sent := 0, bytes_received := 0 }
    known_connections := ["k"] }

/-- A concrete observation with remote port 9999. -/
def obs9999 : RawConn :=
  { laddr := some ("10.0.0.2", 50000), raddr := some ("203.0.113.5", 9999)
    status := "ESTABLISHED", isTCP := true }

/-- A concrete observation with remote port 587. -/
def obs587 : RawConn :=
  { laddr := some ("10.0.0.2", 50001), raddr := some ("192.0.2.10", 587)
    status := "ESTABLISHED", isTCP := true }

/-- A concrete observation on an email port whose remote address
matches the watch pattern `metrics`. -/
def obsWatch : RawConn :=
  { laddr := some ("10.0.0.2", 40000)
    raddr := some ("metrics.example.com", 587)
    status := "ESTABLISHED", isTCP := true }

/-- The report exported from an empty session, with the effectful
header inputs fixed. -/
def emptySessionReport : String :=
  export_report "2026-10-12 00:00:00" 7 "logs/network.log"
    (fun _ => "00:00:00") initMonState

/-! ## Theorems -/

/-- Unfolding of the timeout branch of the parse loop for a line that
passes the field/integer guard and counts as a timeout. -/
theorem trLineStep_timeout (s : TrState) (l : List Char)
    (h : intLeadLine l = true) (hstar : 3 ≤ countChar '*' l) :
    trLineStep s l =
      if 3 ≤ s.ct + 1 then TrOut.brk { s with ct := s.ct + 1 }
      else TrOut.next { s with ct := s.ct + 1 } := by
  unfold intLeadLine at h
  simp only [Bool.and_eq_true, Bool.not_eq_true', decide_eq_true_eq] at h
  obtain ⟨⟨h1, h2⟩, h3⟩ := h
  rw [Option.isSome_iff_exists] at h3
  obtain ⟨n, h3⟩ := h3
  unfold trLineStep
  rw [if_neg (by simp [h1]), if_neg (by omega), h3, if_pos hstar]

/-- Unfolding of the non-timeout branch for a line that passes the
field/integer guard: the consecutive-timeout counter is reset to 0. -/
theorem trLineStep_reset (s : TrState) (l : List Char)
    (h : intLeadLine l = true) (hstar : countChar '*' l < 3) :
    (trLineStep s l).state.ct = 0 := by
  unfold intLeadLine at h
  simp only [Bool.and_eq_true, Bool.not_eq_true', decide_eq_true_eq] at h
  obtain ⟨⟨h1, h2⟩, h3⟩ := h
  rw [Option.isSome_iff_exists] at h3
  obtain ⟨n, h3⟩ := h3
  unfold trLineStep
  rw [if_neg (by simp [h1]), if_neg (by omega), h3, if_neg (by omega)]
  by_cases hf : ((findParenQuad l).isSome || (findWsQuad l).isSome) = true
  · rw [if_pos hf]; rfl
  · rw [if_neg hf]; rfl

/-- Claim C1 (code-bug evidence): the traceroute output line
` 1  gw1 (93.184.216.34)  12.3 ms` has exactly the shape the claim
describes — the parser's own regexes extract the parenthesised IP
`93.184.216.34`, the preceding hostname token `gw1` and the first ms
value `12.3` — and yet the parse loop emits no hop for it: the
`TracerouteHop` construction at `network_analyzer.py:183` raises
`NameError` (the name `is_timeout` is undefined), the outer exception
handler swallows it, and the returned path has an empty hop list. -/
theorem C1_hop_construction_name_error :
    findParenQuad c1Line = some "93.184.216.34".data
    ∧ hostnameBefore "93.184.216.34".data c1Line = some "gw1".data
    ∧ findMs c1Line = some "12.3".data
    ∧ pyFloatOfMs "12.3".data = 123 / 10
    ∧ trRun { hops := [], ct := 0 } [c1Line]
        = ({ hops := [], ct := 0 }, TrStop.err)
    ∧ (traceroute "example.com" [c1Line] none).hops = [] :=
  ⟨rfl, rfl, rfl,
   by norm_num [show pyFloatOfMs "12.3".data
        = ((12 : ℕ) : ℚ) + ((3 : ℕ) : ℚ) / 10 ^ (1 : ℕ) from rfl],
   rfl, rfl⟩

/-- Claim C5 (counterexample): a line containing 3 or more `*`
characters whose first whitespace-separated field is not an integer —
here `* * * x`, with first field `*` — does not increment the
consecutive-timeout counter as the claim requires: from a state with
counter 1 the step leaves the counter at 1, because `int(parts[0])`
raises `ValueError` and the loop `continue`s before the `*` count is
ever examined. -/
theorem C5_counterexample :
    3 ≤ countChar '*' "* * * x".data
    ∧ trLineStep { hops := [], ct := 1 } "* * * x".data
        = TrOut.next { hops := [], ct := 1 } :=
  ⟨by decide, rfl⟩

/-- Claim C5 (amended): restricted to lines having at least two
whitespace-separated fields whose first field parses as an integer, the
claimed counter discipline holds: such a line with 3 or more `*`
characters increments the consecutive-timeout counter and parsing
breaks as soon as the counter reaches 3; such a line with fewer than 3
`*` characters resets the counter to 0; and after three consecutive
timeout lines the loop stops, so no hop is emitted for the 4th or any
later line (the hop list is left exactly as it was). -/
theorem C5_timeout_counter_amended (s : TrState) (l : List Char)
    (h : intLeadLine l = true) :
    (3 ≤ countChar '*' l →
      trLineStep s l =
        if 3 ≤ s.ct + 1 then TrOut.brk { s with ct := s.ct + 1 }
        else TrOut.next { s with ct := s.ct + 1 })
    ∧ (countChar '*' l < 3 → (trLineStep s l).state.ct = 0)
    ∧ (∀ (hops : List TracerouteHop) (l2 l3 : List Char)
        (rest : List (List Char)),
        intLeadLine l2 = true → intLeadLine l3 = true →
        3 ≤ countChar '*' l → 3 ≤ countChar '*' l2 → 3 ≤ countChar '*' l3 →
        trRun { hops := hops, ct := 0 } (l :: l2 :: l3 :: rest)
          = ({ hops := hops, ct := 3 }, TrStop.brk)) := by
  refine ⟨fun hstar => trLineStep_timeout s l h hstar,
          fun hstar => trLineStep_reset s l h hstar,
          fun hops l2 l3 rest h2 h3 st1 st2 st3 => ?_⟩
  have e1 := trLineStep_timeout { hops := hops, ct := 0 } l h st1
  rw [if_neg (by simp)] at e1
  have e2 := trLineStep_timeout { hops := hops, ct := 1 } l2 h2 st2
  rw [if_neg (by simp)] at e2
  have e3 := trLineStep_timeout { hops := hops, ct := 2 } l3 h3 st3
  rw [if_pos (by simp)] at e3
  simp only [trRun, e1, e2, e3]

/-- Witness for the amended claim C5: three concrete timeout lines
cause an early break with counter 3 and an unchanged (empty) hop list,
a fourth well-formed line never being processed. -/
theorem C5_timeout_counter_amended_witness :
    trRun { hops := [], ct := 0 }
        [" 1  * * *".data, " 2  * * *".data, " 3  * * *".data,
         " 4  gw (1.2.3.4) 1 ms".data]
      = ({ hops := [], ct := 3 }, TrStop.brk) :=
  (C5_timeout_counter_amended { hops := [], ct := 0 } " 1  * * *".data
      (by decide)).2.2 [] " 2  * * *".data " 3  * * *".data
    [" 4  gw (1.2.3.4) 1 ms".data] (by decide) (by decide)
    (by decide) (by decide) (by decide)

/-- Complementary filters split the length of a list. -/
theorem length_filter_not_add {α : Type} (l : List α) (p : α → Bool) :
    (l.filter fun a => !p a).length + (l.filter p).length = l.length := by
  induction l with
  | nil => simp
  | cons a t ih =>
    by_cases h : p a <;> simp [List.filter_cons, h] <;> omega

/-- Statement of the claimed path-statistics invariant, written from
the spec (§3, §8): `avg_rtt` is the arithmetic mean over non-timeout
hops (0 if none), `packet_loss` is the timeout-hop percentage, lies in
`[0,100]`, and is 0 for an empty path. -/
def pathStatsSpec (p : NetworkPath) : Prop :=
  p.total_hops = p.hops.length
  ∧ p.avg_rtt =
      (if (p.hops.filter fun h => !h.is_timeout).isEmpty then 0
       else ((p.hops.filter fun h => !h.is_timeout).map
               TracerouteHop.response_time).sum
            / (((p.hops.filter fun h => !h.is_timeout).length : ℚ)))
  ∧ p.packet_loss =
      (if p.total_hops = 0 then 0
       else ((p.hops.filter fun h => h.is_timeout).length : ℚ)
            / (p.total_hops : ℚ) * 100)
  ∧ 0 ≤ p.packet_loss ∧ p.packet_loss ≤ 100
  ∧ (p.total_hops = 0 → p.packet_loss = 0)

/-- The statistics tail of `traceroute` satisfies the claimed
invariant for any hop list. -/
theorem mkNetworkPath_stats (target : String) (hops : List TracerouteHop) :
    pathStatsSpec (mkNetworkPath target hops) := by
  have hsplit := length_filter_not_add hops (fun h => h.is_timeout)
  have hq : ((hops.filter fun h => !h.is_timeout).length : ℚ)
      + ((hops.filter fun h => h.is_timeout).length : ℚ)
      = (hops.length : ℚ) := by exact_mod_cast hsplit
  have hv : ((hops.filter fun h => !h.is_timeout).length : ℚ)
      ≤ (hops.length : ℚ) := by
    exact_mod_cast List.length_filter_le _ hops
  have e1 : (mkNetworkPath target hops).packet_loss
      = (if hops.isEmpty then (0 : ℚ)
         else ((hops.length : ℚ)
             - ((hops.filter fun h => !h.is_timeout).length : ℚ))
           / (hops.length : ℚ) * 100) := rfl
  have hloss : (mkNetworkPath target hops).packet_loss
      = (if hops.length = 0 then (0 : ℚ)
         else ((hops.filter fun h => h.is_timeout).length : ℚ)
           / (hops.length : ℚ) * 100) := by
    rw [e1]
    by_cases h0 : hops.isEmpty
    · simp [h0, List.isEmpty_iff.mp h0]
    · have hne : hops.length ≠ 0 := by
        simpa [List.isEmpty_iff, List.length_eq_zero] using h0
      rw [if_neg h0, if_neg hne]
      have hnum : (hops.length : ℚ)
          - ((hops.filter fun h => !h.is_timeout).length : ℚ)
          = ((hops.filter fun h => h.is_timeout).length : ℚ) := by linarith
      rw [hnum]
  refine ⟨rfl, rfl, hloss, ?_, ?_, ?_⟩
  · rw [e1]
    by_cases h0 : hops.isEmpty
    · simp [h0]
    · rw [if_neg h0]
      have hlen : 0 < (hops.length : ℚ) := by
        have : hops.length ≠ 0 := by
          simpa [List.isEmpty_iff, List.length_eq_zero] using h0
        exact_mod_cast Nat.pos_of_ne_zero this
      have : (0 : ℚ) ≤ ((hops.length : ℚ)
          - ((hops.filter fun h => !h.is_timeout).length : ℚ))
          / (hops.length : ℚ) := div_nonneg (by linarith) hlen.le
      linarith
  · rw [e1]
    by_cases h0 : hops.isEmpty
    · simp [h0]
    · rw [if_neg h0]
      have hlen : 0 < (hops.length : ℚ) := by
        have : hops.length ≠ 0 := by
          simpa [List.isEmpty_iff, List.length_eq_zero] using h0
        exact_mod_cast Nat.pos_of_ne_zero this
      have hfrac : ((hops.length : ℚ)
          - ((hops.filter fun h => !h.is_timeout).length : ℚ))
          / (hops.length : ℚ) ≤ 1 := by
        rw [div_le_one hlen]
        have : (0 : ℚ)
            ≤ ((hops.filter fun h => !h.is_timeout).length : ℚ) := by
          positivity
        linarith
      nlinarith [hfrac, hlen]
  · intro htot
    have h0 : hops.isEmpty = true := by
      have : hops.length = 0 := htot
      simpa [List.isEmpty_iff, List.length_eq_zero] using this
    rw [e1, if_pos h0]

/-- Claim C4: every `NetworkPath` returned by `traceroute` — whatever
the tool output and whatever the fallback probe produced — satisfies
the statistics invariant: `avg_rtt` is the arithmetic mean of the
response times of the non-timeout hops (0 when none exists), and
`packet_loss` equals timeout hops over total hops times 100, lies in
`[0,100]`, and is 0 when `total_hops = 0`. -/
theorem C4_traceroute_statistics (target : String)
    (rawLines : List (List Char)) (fallback : Option (String × ℚ)) :
    pathStatsSpec (traceroute target rawLines fallback) := by
  simp only [traceroute]
  exact mkNetworkPath_stats _ _

/-- Claim C2 (counterexample): `start_monitoring` on a concrete idle
sampler state with a non-empty dedup set, a non-empty connection log
and non-zero counters changes none of them — it only sets the
`monitoring` flag — contradicting the claim that starting clears the
dedup set, empties the log and resets the counters. -/
theorem C2_counterexample :
    c2State.monitoring = false
    ∧ (start_monitoring c2State).known_connections = ["k"]
    ∧ (start_monitoring c2State).connections = [demoConn]
    ∧ (start_monitoring c2State).stats.total_connections = 5
    ∧ (start_monitoring c2State).stats.suspicious_connections = 2 :=
  ⟨rfl, rfl, rfl, rfl, rfl⟩

/-- Claim C2 (amended): `start_monitoring` on an idle sampler only
sets the `monitoring` flag and starts the loop; the session dedup set,
the connection log and all counters are left exactly as they were, so
state carries over from a previous session into a new one (they are
only ever initialised at construction). -/
theorem C2_start_keeps_state_amended (s : MonState)
    (h : s.monitoring = false) :
    start_monitoring s = { s with monitoring := true } := by
  simp [start_monitoring, h]

/-- Witness for the amended claim C2 at a concrete idle state. -/
theorem C2_start_keeps_state_amended_witness :
    start_monitoring c2State = { c2State with monitoring := true } :=
  C2_start_keeps_state_amended c2State rfl

set_option maxRecDepth 8192 in
/-- Claim C3 (counterexample): the report exported from an empty
session does contain the email and suspicious placeholders, but the
text after the `=== ALL CONNECTIONS ===` header is empty — the
all-connections section contains no placeholder line at all,
contradicting the claim that all three list sections carry one. -/
theorem C3_counterexample :
    dropAfterFirst "=== ALL CONNECTIONS ===\n".data emptySessionReport.data
      = some []
    ∧ isSubstr "No email server connections detected.\n".data
        emptySessionReport.data = true
    ∧ isSubstr "No suspicious connections detected.\n".data
        emptySessionReport.data = true :=
  ⟨rfl, rfl, rfl⟩

set_option maxRecDepth 8192 in
/-- Claim C3 (amended): the report exported from an empty session
contains the four named sections in fixed order — STATISTICS, EMAIL
SERVER CONNECTIONS, SUSPICIOUS CONNECTIONS, ALL CONNECTIONS — with a
"none detected" placeholder line in the email and suspicious sections,
while the all-connections section is present but empty, with no
placeholder. -/
theorem C3_empty_report_amended :
    occursInOrder emptySessionReport.data
        ["=== STATISTICS ===\n".data,
         "=== EMAIL SERVER CONNECTIONS ===\n".data,
         "No email server connections detected.\n".data,
         "=== SUSPICIOUS CONNECTIONS ===\n".data,
         "No suspicious connections detected.\n".data,
         "=== ALL CONNECTIONS ===\n".data] = true
    ∧ dropAfterFirst "=== ALL CONNECTIONS ===\n".data emptySessionReport.data
        = some [] :=
  ⟨rfl, rfl⟩

/-- Claim C6: `resolve_dns` is total over every abstracted resolver
outcome (the embedding returns a `DNSResult` for all inputs, matching
"never raises"); a failing address lookup leaves only the address list
empty while a successful mail-exchange lookup still fills `mx_records`,
and symmetrically; an unresolvable host (both lookups fail) yields two
empty lists with `authoritative = false`; and `authoritative` is true
iff at least one address was resolved. -/
theorem C6_resolve_dns_behaviour (cache : List (String × DNSResult))
    (hostname : String) (aAns : Except String (List String))
    (mxAns : Except String (List (Nat × String))) (rt : ℚ) :
    (∀ e l, aAns = .error e → mxAns = .ok l →
      (resolve_dns cache hostname aAns mxAns rt).1.ip_addresses = []
      ∧ (resolve_dns cache hostname aAns mxAns rt).1.mx_records = l)
    ∧ (∀ l e, aAns = .ok l → mxAns = .error e →
      (resolve_dns cache hostname aAns mxAns rt).1.ip_addresses = l
      ∧ (resolve_dns cache hostname aAns mxAns rt).1.mx_records = [])
    ∧ (∀ ea em, aAns = .error ea → mxAns = .error em →
      (resolve_dns cache hostname aAns mxAns rt).1.ip_addresses = []
      ∧ (resolve_dns cache hostname aAns mxAns rt).1.mx_records = []
      ∧ (resolve_dns cache hostname aAns mxAns rt).1.authoritative = false)
    ∧ ((resolve_dns cache hostname aAns mxAns rt).1.authoritative = true
        ↔ (resolve_dns cache hostname aAns mxAns rt).1.ip_addresses ≠ []) := by
  refine ⟨?_, ?_, ?_, ?_⟩
  · rintro e l rfl rfl
    exact ⟨rfl, rfl⟩
  · rintro l e rfl rfl
    exact ⟨rfl, rfl⟩
  · rintro ea em rfl rfl
    exact ⟨rfl, rfl, rfl⟩
  · cases aAns with
    | ok l =>
      simp [resolve_dns, List.length_pos]
    | error e =>
      simp [resolve_dns]

/-- Witness for claim C6: an unresolvable host at concrete inputs. -/
theorem C6_resolve_dns_behaviour_witness :
    (resolve_dns [] "nohost.invalid" (.error "NXDOMAIN") (.error "NXDOMAIN")
        0).1.ip_addresses = []
    ∧ (resolve_dns [] "nohost.invalid" (.error "NXDOMAIN") (.error "NXDOMAIN")
        0).1.mx_records = []
    ∧ (resolve_dns [] "nohost.invalid" (.error "NXDOMAIN") (.error "NXDOMAIN")
        0).1.authoritative = false :=
  (C6_resolve_dns_behaviour [] "nohost.invalid" (.error "NXDOMAIN")
    (.error "NXDOMAIN") 0).2.2.1 "NXDOMAIN" "NXDOMAIN" rfl rfl

/-- Lengths agree between filtering a mapped list and filtering the
source by the composed predicate. -/
theorem length_filter_map_eq {α β : Type} (f : α → β) (q : β → Bool)
    (l : List α) :
    ((l.map f).filter q).length = (l.filter fun a => q (f a)).length := by
  induction l with
  | nil => rfl
  | cons a t ih =>
    by_cases h : q (f a) <;> simp [List.filter_cons, h, ih]

/-- One scanned port reports open exactly when the abstract probe
returned 0. -/
theorem scanOnePort_is_open (probe : Nat → Except Unit Int)
    (rtOf : Nat → ℚ) (p : Nat) :
    (scanOnePort probe rtOf p).is_open = probeOpen probe p := by
  cases h : probe p <;> simp [scanOnePort, probeOpen, h]

/-- Claim C7: for every `analyze_isp_interference` run,
`throttling_detected` is true iff strictly more than one of the fixed
SMTP ports `{25, 465, 587, 2525}` had a failed connect probe, or the
freshly traced path's packet loss exceeds 2. -/
theorem C7_throttling_rule (probe : Nat → Except Unit Int)
    (rtOf : Nat → ℚ) (path : NetworkPath) (dpi : Bool)
    (fmtPct : ℚ → String) :
    (analyze_isp_interference probe rtOf path dpi fmtPct).throttling_detected
      = (decide ((smtp_ports.filter fun p => !probeOpen probe p).length > 1)
         || decide (path.packet_loss > 2)) := by
  have e1 : (analyze_isp_interference probe rtOf path dpi
        fmtPct).throttling_detected
      = (decide ((((scan_smtp_ports probe rtOf).filter
            (fun r => !r.is_open)).map PortScanResult.port).length > 1)
         || decide (path.packet_loss > 2)) := rfl
  rw [e1]
  have e2 : (((scan_smtp_ports probe rtOf).filter
        (fun r => !r.is_open)).map PortScanResult.port).length
      = (smtp_ports.filter fun p => !probeOpen probe p).length := by
    rw [List.length_map, scan_smtp_ports, length_filter_map_eq]
    congr 1
    apply List.filter_congr
    intro p _
    rw [scanOnePort_is_open]
  rw [e2]

/-- Categorisation never touches the dedup set. -/
theorem categorize_known (c : NetworkConnection) (p : Nat) (s : MonState) :
    (categorize_connection c p s).known_connections = s.known_connections := by
  unfold categorize_connection
  split_ifs <;> rfl

/-- Categorisation never touches the connection log. -/
theorem categorize_connections (c : NetworkConnection) (p : Nat)
    (s : MonState) :
    (categorize_connection c p s).connections = s.connections := by
  unfold categorize_connection
  split_ifs <;> rfl

/-- Categorisation never touches the total counter. -/
theorem categorize_total (c : NetworkConnection) (p : Nat) (s : MonState) :
    (categorize_connection c p s).stats.total_connections
      = s.stats.total_connections := by
  unfold categorize_connection
  split_ifs <;> rfl

/-- Categorisation bumps the suspicious counter at most when the
suspicion predicate holds of the record. -/
theorem categorize_susp_le (c : NetworkConnection) (p : Nat) (s : MonState) :
    (categorize_connection c p s).stats.suspicious_connections
      ≤ s.stats.suspicious_connections
        + (if is_suspicious_connection c then 1 else 0) := by
  unfold categorize_connection
  split_ifs <;> simp_all

/-- A `NONE`-status or already-known observation leaves the sampler
state untouched. -/
theorem processObs_skip (s : MonState) (now : ℚ) (pn : String) (o : RawConn)
    (h : o.status = "NONE" ∨ connId o ∈ s.known_connections) :
    processObs s now pn o = s := by
  unfold processObs
  rcases h with h | h
  · rw [if_pos h]
  · by_cases h0 : o.status = "NONE"
    · rw [if_pos h0]
    · rw [if_neg h0, if_pos h]

/-- A fresh observation records the key, appends the record, bumps the
total counter and categorizes. -/
theorem processObs_new (s : MonState) (now : ℚ) (pn : String) (o : RawConn)
    (h1 : o.status ≠ "NONE") (h2 : connId o ∉ s.known_connections) :
    processObs s now pn o
      = categorize_connection (obsConn now pn o)
          ((o.raddr.map Prod.snd).getD 0)
          { s with
            known_connections := s.known_connections ++ [connId o]
            connections := s.connections ++ [obsConn now pn o]
            stats.total_connections := s.stats.total_connections + 1 } := by
  unfold processObs
  rw [if_neg h1, if_neg h2]

/-- Claim C8: within one session, re-observing the same raw connection
(same endpoints and status) is a no-op — the first observation appends
exactly one record and bumps the total counter exactly once, and any
later observation of the same triple, at any tick time, leaves the
state unchanged. -/
theorem C8_dedup_idempotent (s : MonState) (now now2 : ℚ)
    (pn pn2 : String) (o : RawConn) (hst : o.status ≠ "NONE") :
    processObs (processObs s now pn o) now2 pn2 o = processObs s now pn o
    ∧ (connId o ∉ s.known_connections →
        (processObs s now pn o).connections.length = s.connections.length + 1
        ∧ (processObs s now pn o).stats.total_connections
            = s.stats.total_connections + 1) := by
  by_cases hk : connId o ∈ s.known_connections
  · have h1 : processObs s now pn o = s := processObs_skip s now pn o (.inr hk)
    refine ⟨?_, fun hnk => absurd hk hnk⟩
    rw [h1]
    exact processObs_skip s now2 pn2 o (.inr hk)
  · have h1 := processObs_new s now pn o hst hk
    have hmem : connId o ∈ (processObs s now pn o).known_connections := by
      rw [h1, categorize_known]
      simp
    refine ⟨processObs_skip _ now2 pn2 o (.inr hmem), fun _ => ⟨?_, ?_⟩⟩
    · rw [h1, categorize_connections]
      simp
    · rw [h1, categorize_total]

/-- Witness for claim C8 at a concrete fresh state and observation. -/
theorem C8_dedup_idempotent_witness :
    processObs (processObs initMonState 0 "python" obs9999) 1 "py2" obs9999
      = processObs initMonState 0 "python" obs9999
    ∧ (processObs initMonState 0 "python" obs9999).connections.length = 1
    ∧ (processObs initMonState 0 "python" obs9999).stats.total_connections
        = 1 := by
  have h := C8_dedup_idempotent initMonState 0 1 "python" "py2" obs9999
    (by decide)
  exact ⟨h.1, (h.2 (List.not_mem_nil _)).1, (h.2 (List.not_mem_nil _)).2⟩

/-- Claim C9: a fresh observation with remote port 9999 (unexpected,
above the high-port threshold, not 8080/8443) is classified other and
flagged suspicious — both counters bump — for any remote address; a
fresh observation with remote port 587 is classified smtp and the
suspicious counter is untouched; and the port-range rule itself can
never fire for 587 while it always fires for 9999. -/
theorem C9_port_suspicion (s : MonState) (now : ℚ) (pn : String)
    (o : RawConn) (ra : String) (hst : o.status ≠ "NONE")
    (hnew : connId o ∉ s.known_connections) :
    (o.raddr = some (ra, 9999) →
      (processObs s now pn o).stats.other_connections
          = s.stats.other_connections + 1
      ∧ (processObs s now pn o).stats.suspicious_connections
          = s.stats.suspicious_connections + 1)
    ∧ (o.raddr = some (ra, 587) →
      (processObs s now pn o).stats.smtp_connections
          = s.stats.smtp_connections + 1
      ∧ (processObs s now pn o).stats.suspicious_connections
          = s.stats.suspicious_connections)
    ∧ portRangeSuspicious 587 = false
    ∧ portRangeSuspicious 9999 = true := by
  refine ⟨?_, ?_, rfl, rfl⟩
  · intro hr
    rw [processObs_new s now pn o hst hnew]
    simp [categorize_connection, obsConn, hr, is_suspicious_connection,
      portRangeSuspicious, expected_service_ports]
  · intro hr
    rw [processObs_new s now pn o hst hnew]
    simp [categorize_connection, obsConn, hr]

/-- Witness for claim C9: concrete observations on ports 9999 and 587
from the fresh sampler state. -/
theorem C9_port_suspicion_witness :
    ((processObs initMonState 0 "python" obs9999).stats.other_connections = 1
      ∧ (processObs initMonState 0
          "python" obs9999).stats.suspicious_connections = 1)
    ∧ ((processObs initMonState 0 "python" obs587).stats.smtp_connections = 1
      ∧ (processObs initMonState 0
          "python" obs587).stats.suspicious_connections = 0) := by
  constructor
  · exact (C9_port_suspicion initMonState 0 "python" obs9999 "203.0.113.5"
      (by decide) (List.not_mem_nil _)).1 rfl
  · exact (C9_port_suspicion initMonState 0 "python" obs587 "192.0.2.10"
      (by decide) (List.not_mem_nil _)).2.1 rfl

/-- The suspicious counter stays below the length of the recomputed
suspicious list along any run of the sampling loop. -/
theorem runObs_susp_le (obs : List (ℚ × String × RawConn)) :
    ∀ s : MonState,
      s.stats.suspicious_connections ≤ (get_suspicious_connections s).length →
      (runObs s obs).stats.suspicious_connections
        ≤ (get_suspicious_connections (runObs s obs)).length := by
  induction obs with
  | nil => exact fun s h => h
  | cons t rest ih =>
    intro s h
    obtain ⟨now, pn, o⟩ := t
    show (runObs (processObs s now pn o) rest).stats.suspicious_connections
      ≤ (get_suspicious_connections (runObs (processObs s now pn o) rest)).length
    apply ih
    by_cases hsk : o.status = "NONE" ∨ connId o ∈ s.known_connections
    · rw [processObs_skip s now pn o hsk]
      exact h
    · push_neg at hsk
      obtain ⟨h1, h2⟩ := hsk
      rw [processObs_new s now pn o h1 h2]
      have hle := categorize_susp_le (obsConn now pn o)
        ((o.raddr.map Prod.snd).getD 0)
        { s with
          known_connections := s.known_connections ++ [connId o]
          connections := s.connections ++ [obsConn now pn o]
          stats.total_connections := s.stats.total_connections + 1 }
      simp only [get_suspicious_connections, categorize_connections]
      have hfil : ((s.connections ++ [obsConn now pn o]).filter
            is_suspicious_connection).length
          = (s.connections.filter is_suspicious_connection).length
            + (if is_suspicious_connection (obsConn now pn o) then 1 else 0) := by
        rw [List.filter_append]
        by_cases hc : is_suspicious_connection (obsConn now pn o) <;>
          simp [hc]
      simp only [get_suspicious_connections] at h
      rw [hfil]
      by_cases hc : is_suspicious_connection (obsConn now pn o) <;>
        simp only [hc, if_true, if_false] at hle ⊢ <;> omega

/-- Claim C10: the suspicion predicate is applied at log time only to
other-class records, while `get_suspicious_connections` re-evaluates it
over every logged record; hence in every state reachable by the
sampling loop the suspicious counter is at most the length of the
recomputed suspicious list, and a record on an email port whose remote
address matches a watch pattern appears in the accessor's list without
ever having bumped the counter. -/
theorem C10_counter_vs_accessor :
    (∀ obs : List (ℚ × String × RawConn),
      (runObs initMonState obs).stats.suspicious_connections
        ≤ (get_suspicious_connections (runObs initMonState obs)).length)
    ∧ (processObs initMonState 0 "python" obsWatch).stats.smtp_connections = 1
    ∧ (processObs initMonState 0 "python" obsWatch).stats.suspicious_connections
        = 0
    ∧ get_suspicious_connections (processObs initMonState 0 "python" obsWatch)
        = [obsConn 0 "python" obsWatch] := by
  refine ⟨fun obs => runObs_susp_le obs initMonState ?_, rfl, rfl, rfl⟩
  simp [initMonState, get_suspicious_connections]

end EmailTool
